import Mathlib

/-!
Verification of the streamlinux repository's A/V synchronization core,
control channel, and configuration manager against its specification.

The C++ sources are shallowly embedded: 64-bit signed PTS values become
`Int`, `std::deque` buffers become `List`, `double` clock arithmetic
becomes exact `Rat` arithmetic, and every stateful member function becomes
a pure function from the object state (plus an explicit monotonic-clock
input where the C++ reads the system clock) to the new state.
-/

set_option maxRecDepth 100000

namespace StreamLinux

/-! ## Sender-side synchronizer (linux-host/src/sync/av_synchronizer.cpp) -/

/-- EncodedVideoFrame from include/stream_linux/common.hpp: `pts` and the
`keyframe` flag.  The opaque payload bytes and codec tag play no role in
any synchronizer decision and are omitted. -/
structure EncodedVideoFrame where
  pts : Int
  keyframe : Bool
  deriving Repr, DecidableEq

/-- EncodedAudioFrame from common.hpp: only `pts` is consulted. -/
structure EncodedAudioFrame where
  pts : Int
  deriving Repr, DecidableEq

/-- SyncStats from av_synchronizer.hpp.  The drift-ppm statistics
(`audio_drift_ppm`, `video_drift_ppm`) are floating-point values written
only by `correct_drift` and read by nothing the claims mention; they are
not tracked. -/
structure SyncStats where
  audio_video_offset_us : Int := 0
  frames_dropped : Nat := 0
  frames_duplicated : Nat := 0
  deriving Repr, DecidableEq

/-- SyncConfig from av_synchronizer.hpp with its default member values. -/
structure SyncConfig where
  target_offset_us : Int := 0
  max_desync_us : Int := 100000
  jitter_buffer_ms : Int := 50
  enable_drift_correction : Bool := true
  allow_frame_drop : Bool := true
  allow_frame_duplicate : Bool := false
  deriving Repr, DecidableEq

/-- DriftSample from av_synchronizer.hpp. -/
structure DriftSample where
  local_time : Int
  stream_time : Int
  deriving Repr, DecidableEq

/-- The mutable state of AVSynchronizer (av_synchronizer.hpp member
variables). -/
structure SyncState where
  config : SyncConfig := {}
  video_buffer : List EncodedVideoFrame := []
  audio_buffer : List EncodedAudioFrame := []
  running : Bool := false
  base_time : Int := 0
  last_video_pts : Int := 0
  last_audio_pts : Int := 0
  video_drift_samples : List DriftSample := []
  audio_drift_samples : List DriftSample := []
  stats : SyncStats := {}
  deriving Repr, DecidableEq

def DRIFT_SAMPLE_COUNT : Nat := 100

/-- Models the C++ idiom `while (buf.size() > cap) buf.pop_front();`:
the oldest entries are discarded until at most `cap` remain. -/
def dropOldest (cap : Nat) (l : List α) : List α := l.drop (l.length - cap)

/-- Number of iterations of that loop (how many entries get popped). -/
def overflowCount (cap : Nat) (l : List α) : Nat := l.length - cap

/-- AVSynchronizer::reset (av_synchronizer.cpp lines 31-45). -/
def AVSynchronizer.reset (st : SyncState) : SyncState :=
  { st with
      video_buffer := [], audio_buffer := [],
      video_drift_samples := [], audio_drift_samples := [],
      base_time := 0, last_video_pts := 0, last_audio_pts := 0,
      stats := {} }

/-- Models AVSynchronizer::initialize (lines 15-19): store the config,
then reset. -/
def AVSynchronizer.init (config : SyncConfig) : SyncState :=
  AVSynchronizer.reset { config := config }

/-- AVSynchronizer::start (lines 21-24); `now` is `get_monotonic_pts()`. -/
def AVSynchronizer.start (st : SyncState) (now : Int) : SyncState :=
  { st with running := true, base_time := now }

/-- AVSynchronizer::push_video (lines 47-68).  `now` is the value of
`get_monotonic_pts()` at the moment of the call.  The buffer limit loop
(`while size > 30 pop_front`) increments `frames_dropped` once per popped
frame. -/
def AVSynchronizer.push_video (st : SyncState) (now : Int)
    (frame : EncodedVideoFrame) : SyncState :=
  let local_time := now - st.base_time
  let samples := dropOldest DRIFT_SAMPLE_COUNT
    (st.video_drift_samples ++ [⟨local_time, frame.pts⟩])
  let buf := st.video_buffer ++ [frame]
  { st with
      video_drift_samples := samples
      video_buffer := dropOldest 30 buf
      last_video_pts := frame.pts
      stats := { st.stats with
        frames_dropped := st.stats.frames_dropped + overflowCount 30 buf } }

/-- AVSynchronizer::push_audio (lines 70-89).  The buffer limit loop
(`while size > 50 pop_front`) discards the oldest audio frames without
touching any statistic and without returning anything (the function is
`void`). -/
def AVSynchronizer.push_audio (st : SyncState) (now : Int)
    (frame : EncodedAudioFrame) : SyncState :=
  let local_time := now - st.base_time
  let samples := dropOldest DRIFT_SAMPLE_COUNT
    (st.audio_drift_samples ++ [⟨local_time, frame.pts⟩])
  let buf := st.audio_buffer ++ [frame]
  { st with
      audio_drift_samples := samples
      audio_buffer := dropOldest 50 buf
      last_audio_pts := frame.pts }

/-- SyncedFrames from av_synchronizer.hpp. -/
structure SyncedFrames where
  video : Option EncodedVideoFrame := none
  audio : Option EncodedAudioFrame := none
  presentation_time : Int := 0
  video_valid : Bool := false
  audio_valid : Bool := false
  deriving Repr, DecidableEq

/-- AVSynchronizer::calculate_presentation_time (lines 163-174). -/
def AVSynchronizer.calculate_presentation_time (st : SyncState) : Int :=
  max st.last_video_pts st.last_audio_pts
    - st.config.jitter_buffer_ms * 1000 + st.config.target_offset_us

/-- The video half of get_next (lines 107-124): given `max_desync_us` and
the presentation time, inspect the buffer head once.  Returns the attached
frame (if any), the remaining buffer, and how many frames were dropped
(0 or 1). -/
def selectVideo (maxDesync pt : Int) :
    List EncodedVideoFrame → Option EncodedVideoFrame × List EncodedVideoFrame × Nat
  | [] => (none, [], 0)
  | v :: rest =>
    let off := v.pts - pt
    if |off| < maxDesync ∨ v.keyframe = true then (some v, rest, 0)
    else if off < -maxDesync then (none, rest, 1)
    else (none, v :: rest, 0)

/-- The audio half of get_next (lines 127-141): window is
`2 * max_desync_us`; a dropped late audio frame is not counted anywhere. -/
def selectAudio (maxDesync pt : Int) :
    List EncodedAudioFrame → Option EncodedAudioFrame × List EncodedAudioFrame
  | [] => (none, [])
  | a :: rest =>
    let off := a.pts - pt
    if |off| < maxDesync * 2 then (some a, rest)
    else if off < -maxDesync then (none, rest)
    else (none, a :: rest)

/-- AVSynchronizer::get_next (lines 91-161).  The condition-variable wait
is modelled by its outcome: if the synchronizer is stopped, or both
buffers are empty (so the wait times out), the call returns `none`;
otherwise the body runs on the current buffers.  `correct_drift` only
writes the untracked drift-ppm statistics and the output callback is an
external effect, so neither changes the modelled state. -/
def AVSynchronizer.get_next (st : SyncState) : Option (SyncedFrames × SyncState) :=
  if (st.video_buffer = [] ∧ st.audio_buffer = []) ∨ st.running = false then
    none
  else
    let pt := AVSynchronizer.calculate_presentation_time st
    let v := selectVideo st.config.max_desync_us pt st.video_buffer
    let a := selectAudio st.config.max_desync_us pt st.audio_buffer
    let result : SyncedFrames :=
      { video := v.1, audio := a.1, presentation_time := pt,
        video_valid := v.1.isSome, audio_valid := a.1.isSome }
    let stats1 :=
      { st.stats with frames_dropped := st.stats.frames_dropped + v.2.2 }
    let stats2 :=
      match v.1, a.1 with
      | some vf, some af => { stats1 with audio_video_offset_us := af.pts - vf.pts }
      | _, _ => stats1
    some (result, { st with
      video_buffer := v.2.1, audio_buffer := a.2, stats := stats2 })

theorem selectVideo_attached (maxDesync pt : Int) (l : List EncodedVideoFrame)
    (v : EncodedVideoFrame) (h : (selectVideo maxDesync pt l).1 = some v) :
    l.head? = some v ∧ (|v.pts - pt| < maxDesync ∨ v.keyframe = true) := by
  cases l with
  | nil => simp [selectVideo] at h
  | cons w rest =>
    by_cases hc : |w.pts - pt| < maxDesync ∨ w.keyframe = true
    · have hw : w = v := by simpa [selectVideo, hc] using h
      subst hw
      exact ⟨rfl, hc⟩
    · by_cases hl : w.pts - pt < -maxDesync
      · simp [selectVideo, hc, hl] at h
      · simp [selectVideo, hc, hl] at h

theorem selectAudio_attached (maxDesync pt : Int) (l : List EncodedAudioFrame)
    (a : EncodedAudioFrame) (h : (selectAudio maxDesync pt l).1 = some a) :
    |a.pts - pt| < maxDesync * 2 := by
  cases l with
  | nil => simp [selectAudio] at h
  | cons w rest =>
    by_cases hc : |w.pts - pt| < maxDesync * 2
    · have hw : w = a := by simpa [selectAudio, hc] using h
      subst hw
      exact hc
    · by_cases hl : w.pts - pt < -maxDesync
      · simp [selectAudio, hc, hl] at h
      · simp [selectAudio, hc, hl] at h

/-- A state reached by pushing a late keyframe and an on-time audio frame:
the next `get_next` emits both halves 350 ms apart. -/
def c1CexState : SyncState :=
  AVSynchronizer.push_audio
    (AVSynchronizer.push_video
      (AVSynchronizer.start (AVSynchronizer.init {}) 0) 0 ⟨0, true⟩)
    0 ⟨350000⟩

/-- Checks whether a `get_next` outcome violates the claimed SyncedFrames
invariant: both halves valid yet more than `bound` microseconds apart. -/
def desyncViolation (bound : Int) : Option (SyncedFrames × SyncState) → Bool
  | some (r, _) =>
    match r.video, r.audio with
    | some v, some a =>
      r.video_valid && r.audio_valid && decide (¬ |a.pts - v.pts| ≤ bound)
    | _, _ => false
  | none => false

/-- Claim C1 is false as stated: from `c1CexState` (default config,
`max_desync_us = 100000`), `get_next` returns a tuple with both halves
valid whose pts differ by 350000 µs — the keyframe branch of the video
selection attaches a frame arbitrarily far from the audio half. -/
theorem c1_counterexample :
    desyncViolation c1CexState.config.max_desync_us
      (AVSynchronizer.get_next c1CexState) = true := by decide

/-- Claim C1 (amended): a SyncedFrames returned by `get_next` may have
one or even both halves invalid; when both halves are valid and the video
half is not a keyframe, `|audio.pts − video.pts| < 3 × max_desync_us`
(video is taken within `max_desync_us` of the tuple's presentation time
and audio within `2 × max_desync_us` of it). -/
theorem c1_desync_bound (st : SyncState) (r : SyncedFrames) (st' : SyncState)
    (h : AVSynchronizer.get_next st = some (r, st'))
    (v : EncodedVideoFrame) (a : EncodedAudioFrame)
    (hv : r.video = some v) (ha : r.audio = some a)
    (hk : v.keyframe = false) :
    |a.pts - v.pts| < 3 * st.config.max_desync_us := by
  unfold AVSynchronizer.get_next at h
  split at h
  · exact absurd h (by simp)
  · simp only [Option.some.injEq, Prod.mk.injEq] at h
    obtain ⟨hr, -⟩ := h
    subst hr
    simp only at hv ha
    set pt := AVSynchronizer.calculate_presentation_time st with hpt
    have hvb := selectVideo_attached st.config.max_desync_us pt st.video_buffer v hv
    have hab := selectAudio_attached st.config.max_desync_us pt st.audio_buffer a ha
    have hvoff : |v.pts - pt| < st.config.max_desync_us := by
      rcases hvb.2 with h1 | h1
      · exact h1
      · rw [hk] at h1; exact absurd h1 (by simp)
    calc |a.pts - v.pts| ≤ |a.pts - pt| + |pt - v.pts| := abs_sub_le _ _ _
      _ = |a.pts - pt| + |v.pts - pt| := by rw [abs_sub_comm pt]
      _ < 3 * st.config.max_desync_us := by linarith

/-- A state whose next `get_next` emits both halves with a non-keyframe
video frame, used to witness `c1_desync_bound`. -/
def c1WitnessState : SyncState :=
  AVSynchronizer.push_audio
    (AVSynchronizer.push_video
      (AVSynchronizer.start (AVSynchronizer.init {}) 0) 0 ⟨100000, false⟩)
    0 ⟨160000⟩

def c1WitnessResult : SyncedFrames :=
  { video := some ⟨100000, false⟩, audio := some ⟨160000⟩,
    presentation_time := 110000, video_valid := true, audio_valid := true }

def c1WitnessFinal : SyncState :=
  { config := {}, running := true, last_video_pts := 100000,
    last_audio_pts := 160000,
    video_drift_samples := [⟨0, 100000⟩], audio_drift_samples := [⟨0, 160000⟩],
    stats := { audio_video_offset_us := 60000 } }

/-- Witness for `c1_desync_bound` at a concrete synchronizer state. -/
theorem c1_desync_bound_witness :
    |((⟨160000⟩ : EncodedAudioFrame)).pts - ((⟨100000, false⟩ : EncodedVideoFrame)).pts|
      < 3 * c1WitnessState.config.max_desync_us :=
  c1_desync_bound c1WitnessState c1WitnessResult c1WitnessFinal (by decide)
    ⟨100000, false⟩ ⟨160000⟩ (by decide) (by decide) rfl

/-- A keyframe followed by 30 non-keyframes: push_video's overflow loop
evicts the keyframe. -/
def c3OverflowState : SyncState :=
  (List.range 30).foldl
    (fun s i => AVSynchronizer.push_video s 0 ⟨Int.ofNat i + 1, false⟩)
    (AVSynchronizer.push_video
      (AVSynchronizer.start (AVSynchronizer.init {}) 0) 0 ⟨0, true⟩)

/-- Claim C3 is false as stated: after pushing a keyframe and then 30
non-keyframes, the buffer-overflow eviction in `push_video` has discarded
the keyframe (no keyframe remains buffered, one frame counted dropped,
and nothing was ever emitted). -/
theorem c3_counterexample :
    (c3OverflowState.video_buffer.any fun f => f.keyframe) = false ∧
    c3OverflowState.video_buffer.length = 30 ∧
    c3OverflowState.stats.frames_dropped = 1 := by decide

/-- Claim C3 (amended): the late-frame path of `get_next` never discards a
keyframe — a keyframe at the head of the video buffer is always attached
to the emitted tuple, however late, and the drop counter is untouched.
(The overflow eviction in `push_video`, by contrast, discards the oldest
buffered frame regardless of its keyframe flag.) -/
theorem c3_getnext_never_drops_keyframe (st : SyncState)
    (v : EncodedVideoFrame) (rest : List EncodedVideoFrame)
    (hrun : st.running = true) (hbuf : st.video_buffer = v :: rest)
    (hk : v.keyframe = true) :
    ∃ r st', AVSynchronizer.get_next st = some (r, st') ∧
      r.video = some v ∧ r.video_valid = true ∧
      st'.video_buffer = rest ∧
      st'.stats.frames_dropped = st.stats.frames_dropped := by
  unfold AVSynchronizer.get_next
  rw [if_neg (by simp [hbuf, hrun])]
  refine ⟨_, _, rfl, ?_, ?_, ?_, ?_⟩ <;>
    cases ha : (selectAudio st.config.max_desync_us
        (AVSynchronizer.calculate_presentation_time st) st.audio_buffer).1 <;>
      simp [hbuf, selectVideo, hk, ha]

/-- Witness state for `c3_getnext_never_drops_keyframe`: one late keyframe
buffered. -/
def c3WitnessState : SyncState :=
  AVSynchronizer.push_audio
    (AVSynchronizer.push_video
      (AVSynchronizer.start (AVSynchronizer.init {}) 0) 0 ⟨0, true⟩)
    0 ⟨500000⟩

/-- Witness for `c3_getnext_never_drops_keyframe`. -/
theorem c3_getnext_never_drops_keyframe_witness :
    ∃ r st', AVSynchronizer.get_next c3WitnessState = some (r, st') ∧
      r.video = some ⟨0, true⟩ ∧ r.video_valid = true ∧
      st'.video_buffer = [] ∧
      st'.stats.frames_dropped = c3WitnessState.stats.frames_dropped :=
  c3_getnext_never_drops_keyframe c3WitnessState ⟨0, true⟩ [] (by decide)
    (by decide) rfl

/-- The presentation-time formula exactly as the spec words it. -/
def specRefPts (last_video_pts last_audio_pts jitter_buffer_ms target_offset_us : Int) : Int :=
  max last_video_pts last_audio_pts - jitter_buffer_ms * 1000 + target_offset_us

/-- Two consecutive too-late video heads and fresh audio: a single
`get_next` invocation drops only the first head. -/
def c4CexState : SyncState :=
  AVSynchronizer.push_audio
    (AVSynchronizer.push_video
      (AVSynchronizer.push_video
        (AVSynchronizer.start (AVSynchronizer.init {}) 0) 0 ⟨0, false⟩)
      0 ⟨10000, false⟩)
    0 ⟨500000⟩

/-- Claim C4 is false as stated: with two consecutive too-late heads
(pts 0 and 10000 against ref_pts 450000), one `get_next` drops only the
first head (`frames_dropped` becomes 1 and one late frame remains
buffered), although the remaining head is itself more than
`max_desync_us` late — there is no drop-and-retry loop. -/
theorem c4_counterexample :
    ((AVSynchronizer.get_next c4CexState).map fun p =>
        (p.1.video_valid, p.2.video_buffer.length, p.2.stats.frames_dropped))
      = some (false, 1, 1) ∧
    (10000 : Int) - AVSynchronizer.calculate_presentation_time c4CexState
      < -c4CexState.config.max_desync_us := by
  exact ⟨by decide, by decide⟩

/-- Claim C4 (amended): each `get_next` invocation computes
`ref_pts = max(last_video_pts, last_audio_pts) − jitter_buffer_ms × 1000 +
target_offset_us` as the tuple's presentation time and examines the head
of `video_buf` once: the head is moved out and attached when
`|pts − ref_pts| < max_desync_us` or it is a keyframe; when
`pts − ref_pts < −max_desync_us` the head alone is dropped
(`frames_dropped` counted) and the invocation attaches no video — there
is no retry, so a following too-late head survives until a later
invocation; otherwise (head early) the head stays buffered. -/
theorem c4_video_selection (st : SyncState) (v : EncodedVideoFrame)
    (rest : List EncodedVideoFrame)
    (hrun : st.running = true) (hbuf : st.video_buffer = v :: rest) :
    ∃ r st', AVSynchronizer.get_next st = some (r, st') ∧
      r.presentation_time = specRefPts st.last_video_pts st.last_audio_pts
        st.config.jitter_buffer_ms st.config.target_offset_us ∧
      ((|v.pts - r.presentation_time| < st.config.max_desync_us ∨ v.keyframe = true) →
        r.video = some v ∧ st'.video_buffer = rest ∧
        st'.stats.frames_dropped = st.stats.frames_dropped) ∧
      (¬(|v.pts - r.presentation_time| < st.config.max_desync_us ∨ v.keyframe = true) →
        v.pts - r.presentation_time < -st.config.max_desync_us →
        r.video = none ∧ st'.video_buffer = rest ∧
        st'.stats.frames_dropped = st.stats.frames_dropped + 1) ∧
      (¬(|v.pts - r.presentation_time| < st.config.max_desync_us ∨ v.keyframe = true) →
        ¬(v.pts - r.presentation_time < -st.config.max_desync_us) →
        r.video = none ∧ st'.video_buffer = v :: rest ∧
        st'.stats.frames_dropped = st.stats.frames_dropped) := by
  unfold AVSynchronizer.get_next
  rw [if_neg (by simp [hbuf, hrun])]
  rw [hbuf]
  refine ⟨_, _, rfl, rfl, ?_, ?_, ?_⟩
  · intro h1
    have h1' : |v.pts - AVSynchronizer.calculate_presentation_time st| <
        st.config.max_desync_us ∨ v.keyframe = true := h1
    cases ha : (selectAudio st.config.max_desync_us
        (AVSynchronizer.calculate_presentation_time st) st.audio_buffer).1 <;>
      simp [selectVideo, if_pos h1', ha]
  · intro h1 h2
    have h1' : ¬(|v.pts - AVSynchronizer.calculate_presentation_time st| <
        st.config.max_desync_us ∨ v.keyframe = true) := h1
    have h2' : v.pts - AVSynchronizer.calculate_presentation_time st <
        -st.config.max_desync_us := h2
    cases ha : (selectAudio st.config.max_desync_us
        (AVSynchronizer.calculate_presentation_time st) st.audio_buffer).1 <;>
      simp [selectVideo, if_neg h1', if_pos h2', ha]
  · intro h1 h2
    have h1' : ¬(|v.pts - AVSynchronizer.calculate_presentation_time st| <
        st.config.max_desync_us ∨ v.keyframe = true) := h1
    have h2' : ¬(v.pts - AVSynchronizer.calculate_presentation_time st <
        -st.config.max_desync_us) := h2
    cases ha : (selectAudio st.config.max_desync_us
        (AVSynchronizer.calculate_presentation_time st) st.audio_buffer).1 <;>
      simp [selectVideo, if_neg h1', if_neg h2', ha]

/-- Witness state for `c4_video_selection`: an on-time head. -/
def c4WitnessState : SyncState :=
  AVSynchronizer.push_audio
    (AVSynchronizer.push_video
      (AVSynchronizer.start (AVSynchronizer.init {}) 0) 0 ⟨100000, false⟩)
    0 ⟨160000⟩

/-- Witness for `c4_video_selection`. -/
theorem c4_video_selection_witness :
    ∃ r st', AVSynchronizer.get_next c4WitnessState = some (r, st') ∧
      r.presentation_time = specRefPts c4WitnessState.last_video_pts
        c4WitnessState.last_audio_pts c4WitnessState.config.jitter_buffer_ms
        c4WitnessState.config.target_offset_us ∧
      ((|(100000 : Int) - r.presentation_time| < c4WitnessState.config.max_desync_us ∨
          (⟨100000, false⟩ : EncodedVideoFrame).keyframe = true) →
        r.video = some ⟨100000, false⟩ ∧ st'.video_buffer = [] ∧
        st'.stats.frames_dropped = c4WitnessState.stats.frames_dropped) ∧
      (¬(|(100000 : Int) - r.presentation_time| < c4WitnessState.config.max_desync_us ∨
          (⟨100000, false⟩ : EncodedVideoFrame).keyframe = true) →
        (100000 : Int) - r.presentation_time < -c4WitnessState.config.max_desync_us →
        r.video = none ∧ st'.video_buffer = [] ∧
        st'.stats.frames_dropped = c4WitnessState.stats.frames_dropped + 1) ∧
      (¬(|(100000 : Int) - r.presentation_time| < c4WitnessState.config.max_desync_us ∨
          (⟨100000, false⟩ : EncodedVideoFrame).keyframe = true) →
        ¬((100000 : Int) - r.presentation_time < -c4WitnessState.config.max_desync_us) →
        r.video = none ∧ st'.video_buffer = [⟨100000, false⟩] ∧
        st'.stats.frames_dropped = c4WitnessState.stats.frames_dropped) :=
  c4_video_selection c4WitnessState ⟨100000, false⟩ [] (by decide) rfl

/-- 51 audio pushes: the oldest frame disappears with no signal. -/
def c5CexState : SyncState :=
  (List.range 51).foldl
    (fun s i => AVSynchronizer.push_audio s 0 ⟨Int.ofNat i⟩)
    (AVSynchronizer.start (AVSynchronizer.init {}) 0)

/-- Claim C5 is false as stated: pushing 51 audio frames leaves the first
frame (pts 0) nowhere — the buffer holds the 50 newest, no statistic
changed, and `push_audio` (a `void` function) signalled nothing. -/
theorem c5_counterexample :
    c5CexState.audio_buffer.length = 50 ∧
    c5CexState.audio_buffer.head? = some ⟨1⟩ ∧
    c5CexState.stats = {} := by decide

/-- Claim C5 (amended): `push_audio` silently discards the oldest audio
frames once the buffer would exceed 50 entries: the resulting buffer is
the newest 50 of the old buffer plus the new frame, and no statistic,
return value, or other state records the loss (there is no backpressure
signal). -/
theorem c5_push_audio_semantics (st : SyncState) (now : Int)
    (f : EncodedAudioFrame) :
    (AVSynchronizer.push_audio st now f).audio_buffer
        = dropOldest 50 (st.audio_buffer ++ [f]) ∧
    (AVSynchronizer.push_audio st now f).stats = st.stats ∧
    (AVSynchronizer.push_audio st now f).last_audio_pts = f.pts ∧
    (AVSynchronizer.push_audio st now f).video_buffer = st.video_buffer :=
  ⟨rfl, rfl, rfl, rfl⟩

/-! ## Receiver-side synchronizer
(android-client/app/src/main/cpp/sync/av_sync.cpp)

`double` arithmetic is embedded as exact `Rat` arithmetic; the
`static_cast<int64_t>` of a double is truncation toward zero. -/

namespace Receiver

def SYNC_THRESHOLD_US : Int := 40000
def DROP_THRESHOLD_US : Int := 100000
def REPEAT_THRESHOLD_US : Int := -40000

/-- Truncation toward zero, modelling `static_cast<int64_t>` applied to a
double. -/
def truncToInt (q : ℚ) : Int := if 0 ≤ q then ⌊q⌋ else ⌈q⌉

/-- `std::clamp(v, lo, hi)`: `v < lo ? lo : (hi < v ? hi : v)`. -/
def stdClamp (v lo hi : ℚ) : ℚ := if v < lo then lo else if hi < v then hi else v

/-- MasterClock state (av_sync.cpp lines 127-178): `m_basePts`,
`m_baseTime` (a steady-clock instant, in microseconds) and `m_speed`.
The constructor calls `reset()`, so a fresh clock has speed 1. -/
structure MasterClock where
  basePts : Int := 0
  baseTime : Int := 0
  speed : ℚ := 1
  deriving Repr, DecidableEq

/-- MasterClock::getTime (lines 140-146); `now` is the current
steady-clock reading in microseconds. -/
def MasterClock.getTime (c : MasterClock) (now : Int) : Int :=
  c.basePts + truncToInt (((now - c.baseTime : Int) : ℚ) * c.speed)

/-- MasterClock::setTime (lines 133-138). -/
def MasterClock.setTime (_c : MasterClock) (now pts : Int) : MasterClock :=
  { basePts := pts, baseTime := now, speed := 1 }

/-- MasterClock::adjustSpeed (lines 148-160): rebase `(basePts, baseTime)`
to the current instant, then clamp the new factor to [0.9, 1.1]. -/
def MasterClock.adjustSpeed (c : MasterClock) (now : Int) (factor : ℚ) :
    MasterClock :=
  { basePts := c.basePts + truncToInt (((now - c.baseTime : Int) : ℚ) * c.speed),
    baseTime := now,
    speed := stdClamp factor 0.9 1.1 }

/-- MasterClock::reset (lines 166-171). -/
def MasterClock.reset (_c : MasterClock) (now : Int) : MasterClock :=
  { basePts := 0, baseTime := now, speed := 1 }

/-- AVSynchronizer::checkVideoSync (lines 233-251).  Returns the action
code (0 = display, 1 = wait, -1 = drop) and how much `framesDropped` is
incremented.  The C++ takes only the frame pts — there is no keyframe
parameter. -/
def checkVideoSync (clock : MasterClock) (now framePts : Int) : Int × Nat :=
  let diff := framePts - clock.getTime now
  if REPEAT_THRESHOLD_US < diff ∧ diff < SYNC_THRESHOLD_US then (0, 0)
  else if diff ≤ REPEAT_THRESHOLD_US then (1, 0)
  else if DROP_THRESHOLD_US < diff then (-1, 1)
  else (0, 0)

/-- AVSynchronizer::correctDrift (lines 278-301): returns the adjusted
master clock and the recorded `playbackSpeed` statistic. -/
def correctDrift (clock : MasterClock) (now : Int) (drift : Int) :
    MasterClock × ℚ :=
  if SYNC_THRESHOLD_US < |drift| then
    let correction : ℚ := if 0 < drift then 0.98 else 1.02
    (clock.adjustSpeed now correction, correction)
  else
    (clock.adjustSpeed now 1, 1)

/-- Any sequence of the operations that write the master clock. -/
inductive ClockOp where
  | adjust (now : Int) (factor : ℚ)
  | set (now pts : Int)
  | reset (now : Int)
  | correct (now drift : Int)
  deriving Repr

def applyOp (c : MasterClock) : ClockOp → MasterClock
  | .adjust now f => c.adjustSpeed now f
  | .set now pts => c.setTime now pts
  | .reset now => c.reset now
  | .correct now drift => (correctDrift c now drift).1

def applyOps (c : MasterClock) (ops : List ClockOp) : MasterClock :=
  ops.foldl applyOp c

theorem stdClamp_mem (v lo hi : ℚ) (h : lo ≤ hi) :
    lo ≤ stdClamp v lo hi ∧ stdClamp v lo hi ≤ hi := by
  unfold stdClamp
  split_ifs with h1 h2
  · exact ⟨le_refl lo, h⟩
  · exact ⟨h, le_refl hi⟩
  · exact ⟨le_of_not_lt h1, le_of_not_lt h2⟩

theorem applyOp_speed_mem (c : MasterClock) (op : ClockOp) :
    0.9 ≤ (applyOp c op).speed ∧ (applyOp c op).speed ≤ 1.1 := by
  cases op with
  | adjust now f => exact stdClamp_mem f 0.9 1.1 (by norm_num)
  | set now pts => constructor <;> norm_num [applyOp, MasterClock.setTime]
  | reset now => constructor <;> norm_num [applyOp, MasterClock.reset]
  | correct now drift =>
    show 0.9 ≤ (correctDrift c now drift).1.speed ∧
      (correctDrift c now drift).1.speed ≤ 1.1
    unfold correctDrift
    split_ifs <;>
      exact stdClamp_mem _ 0.9 1.1 (by norm_num)

/-- Claim C6: after any sequence of adjustSpeed / setTime / reset /
correctDrift operations on a fresh master clock, the stored speed lies in
[0.9, 1.1]; and whenever the measured drift is within ±sync_threshold
(40 000 µs), correctDrift sets the speed back to exactly 1. -/
theorem c6_speed_bounds (ops : List ClockOp) :
    (0.9 ≤ (applyOps {} ops).speed ∧ (applyOps {} ops).speed ≤ 1.1) ∧
    (∀ (c : MasterClock) (now drift : Int), |drift| ≤ SYNC_THRESHOLD_US →
      (correctDrift c now drift).1.speed = 1) := by
  constructor
  · have key : ∀ (l : List ClockOp) (c : MasterClock),
        0.9 ≤ c.speed ∧ c.speed ≤ 1.1 →
        0.9 ≤ (applyOps c l).speed ∧ (applyOps c l).speed ≤ 1.1 := by
      intro l
      induction l with
      | nil => intro c hc; exact hc
      | cons op rest ih =>
        intro c _
        exact ih (applyOp c op) (applyOp_speed_mem c op)
    exact key ops {} (by constructor <;> norm_num)
  · intro c now drift hd
    unfold correctDrift
    rw [if_neg (not_lt.mpr hd)]
    show stdClamp 1 0.9 1.1 = 1
    unfold stdClamp
    norm_num

/-- Witness for `c6_speed_bounds`: a wild adjustSpeed(5) is clamped into
the bounds, and correctDrift with zero drift restores speed 1. -/
theorem c6_speed_bounds_witness :
    (0.9 ≤ (applyOps {} [ClockOp.adjust 0 5]).speed ∧
      (applyOps {} [ClockOp.adjust 0 5]).speed ≤ 1.1) ∧
    (correctDrift {} 7 0).1.speed = 1 :=
  ⟨(c6_speed_bounds [ClockOp.adjust 0 5]).1,
   (c6_speed_bounds []).2 {} 7 0 (by decide)⟩

/-- Claim C2 (code behaviour at the claimed inputs, master clock fixed at
C(t) = 0): a frame 120 ms late is classified 1 = wait (the claim and the
function's own comments require drop for late non-keyframes), a frame
60 ms late is classified 1 = wait (the claim requires repeat-previous,
which the code does not implement — `framesRepeated` is never
incremented), a frame 150 ms early is dropped with `framesDropped`
incremented (the claim requires delay), an on-time frame is displayed,
and the classifier takes no keyframe flag at all, so keyframes are
dropped like any other frame. -/
theorem c2_code_behavior :
    checkVideoSync {} 0 (-120000) = (1, 0) ∧
    checkVideoSync {} 0 (-60000) = (1, 0) ∧
    checkVideoSync {} 0 150000 = (-1, 1) ∧
    checkVideoSync {} 0 0 = (0, 0) ∧
    checkVideoSync {} 0 60000 = (0, 0) := by
  refine ⟨?_, ?_, ?_, ?_, ?_⟩ <;>
    norm_num [checkVideoSync, MasterClock.getTime, truncToInt,
      REPEAT_THRESHOLD_US, SYNC_THRESHOLD_US, DROP_THRESHOLD_US]

/-- Claim C10: adjustSpeed rebases `(basePts, baseTime)` to the current
instant before changing the speed, so the clock reading at the moment of
the call is unchanged by the adjustment — only the rate of later readings
changes. -/
theorem c10_adjustSpeed_no_discontinuity (c : MasterClock) (now : Int)
    (factor : ℚ) :
    (c.adjustSpeed now factor).getTime now = c.getTime now := by
  unfold MasterClock.adjustSpeed MasterClock.getTime
  simp [truncToInt]

end Receiver

/-! ## String primitives shared by the control-channel and configuration
models.  C++ `std::string` values are embedded as `List Char`. -/

def leftBrace : Char := Char.ofNat 123
def rightBrace : Char := Char.ofNat 125

/-- `std::string::find(pat)`: index of the first occurrence, or `none`
for `npos`. -/
def findSub (s pat : List Char) : Option Nat :=
  if pat.isPrefixOf s then some 0
  else
    match s with
    | [] => none
    | _ :: t => (findSub t pat).map (· + 1)

/-- `s.find(pat) != npos`. -/
def containsSub (s pat : List Char) : Bool := (findSub s pat).isSome

/-- `std::string::find(c, pos)`: first occurrence of `c` at or after
index `pos`. -/
def findCharFrom (s : List Char) (c : Char) (pos : Nat) : Option Nat :=
  ((s.drop pos).findIdx? (· = c)).map (· + pos)

/-- The whitespace class of `std::isspace` in the default locale. -/
def isCppSpace (c : Char) : Bool :=
  c = ' ' || c = '\t' || c = '\n' || c = '\r' || c = Char.ofNat 11 || c = Char.ofNat 12

/-- Value of a digit string (the accumulating loop of `strtol`). -/
def digitsToNat (ds : List Char) : Nat :=
  ds.foldl (fun a c => a * 10 + (c.toNat - 48)) 0

/-- Parse a leading run of decimal digits; `none` when there is none
(`std::invalid_argument` in C++). -/
def parseDigits (s : List Char) : Option Nat :=
  let ds := s.takeWhile Char.isDigit
  if ds.isEmpty then none else some (digitsToNat ds)

/-- `std::stol` / `std::stoi`: skip leading whitespace, optional sign,
then a nonempty digit run; trailing characters are ignored (the callers
in this codebase never inspect the end position).  `none` models a thrown
exception.  Out-of-range magnitudes are left to the callers' own range
checks, which subsume them. -/
def stol (s : List Char) : Option Int :=
  match s.dropWhile isCppSpace with
  | [] => none
  | c :: rest =>
    if c = '-' then (parseDigits rest).map (fun n => -(n : Int))
    else if c = '+' then (parseDigits rest).map (fun n => (n : Int))
    else (parseDigits (c :: rest)).map (fun n => (n : Int))

/-- `std::stoul`-style unsigned parse used by parse_toml; `none` models a
thrown exception (including the negative-sign wraparound case, which the
callers' upper range checks reject identically). -/
def stoul (s : List Char) : Option Nat :=
  parseDigits (s.dropWhile isCppSpace)

/-! ## Control channel (linux-host/src/control/control_channel.cpp) -/

namespace Control

/-- ControlMessageType from webrtc_transport.hpp. -/
inductive ControlMessageType where
  | Pause | Resume | SetResolution | SetBitrate | SetQuality
  | SelectMonitor | RequestKeyframe | Ping | Pong
  deriving Repr, DecidableEq

/-- ControlMessage from webrtc_transport.hpp: type, JSON payload and
sequence number.  There is no sender-identity field. -/
structure ControlMessage where
  type : ControlMessageType
  payload : List Char := []
  sequence : Nat := 0
  deriving Repr, DecidableEq

/-- The observable effects of ControlChannel::process_message: calls into
the IControlHandler, a pong sent on the transport, or the RTT statistic
being refreshed. -/
inductive Effect where
  | onPause | onResume | onParametersChanged | onKeyframeRequested
  | sendPong (echo_sequence : Nat)
  | rttUpdated
  deriving Repr, DecidableEq

/-- The `validate_number` lambda inside ControlChannel::parse_message
(control_channel.cpp lines 158-172). -/
def validate_number (json key : List Char) (min_val max_val : Nat) : Bool :=
  match findSub json ('"' :: key ++ ['"']) with
  | none => true
  | some pos =>
    match findCharFrom json ':' pos with
    | none => false
    | some colon =>
      match stol (json.drop (colon + 1)) with
      | none => false
      | some v => decide ((min_val : Int) ≤ v) && decide (v ≤ (max_val : Int))

/-- ControlChannel::parse_message (lines 136-193): `true` models a
successful `Result`, `false` an error return. -/
def parse_message (json : List Char) : Bool :=
  if json.isEmpty || decide (json.length > 64 * 1024) then false
  else if json.head? ≠ some leftBrace ∨ json.getLast? ≠ some rightBrace then false
  else if (findSub json ('"' :: ("type".toList ++ ['"']))).isNone then false
  else
    validate_number json "width".toList 64 7680 &&
    validate_number json "height".toList 64 4320 &&
    validate_number json "bitrate".toList 100000 100000000 &&
    validate_number json "fps".toList 1 240

/-- ControlChannel::process_message (lines 27-80): dispatch purely on the
message type.  `handlerSet` models `m_handler != nullptr`.  Nothing else
about the channel state is consulted: in particular no sender identity
exists and `m_authorized_peer_id` (declared in control_channel.hpp as the
vuln-0002 fix, together with `set_authorized_peer` and
`is_peer_authorized`, both of which are never defined nor called) is
never read. -/
def process_message (handlerSet : Bool) (msg : ControlMessage) : List Effect :=
  if handlerSet = false then []
  else
    match msg.type with
    | .Pause => [.onPause]
    | .Resume => [.onResume]
    | .SetResolution | .SetBitrate | .SetQuality | .SelectMonitor =>
      if parse_message msg.payload then [.onParametersChanged] else []
    | .RequestKeyframe => [.onKeyframeRequested]
    | .Ping => [.sendPong msg.sequence]
    | .Pong => [.rttUpdated]

/-- Claim C7 (code behaviour): process_message applies a control
message's effect unconditionally — the function has no sender-identity
input at all (ControlMessage carries none) and never consults the
authorized peer, so the Pause sent by the unauthorized peer P2 triggers
on_pause exactly as P1's identical message would. -/
theorem c7_no_peer_authentication :
    process_message true { type := .Pause } = [Effect.onPause] ∧
    process_message true { type := .Resume } = [Effect.onResume] ∧
    process_message true { type := .RequestKeyframe }
      = [Effect.onKeyframeRequested] := by
  exact ⟨rfl, rfl, rfl⟩

end Control

/-! ## Config-path validation (linux-host/src/cli/config_manager.cpp,
validate_config_path, lines 16-75) -/

namespace ConfigPath

/-- The process environment the validator consults: `getenv("HOME")` and
the result of the canonicalization block (lines 28-46), which resolves a
path through the filesystem when it (or its parent) exists and otherwise
falls back to the path itself. -/
structure PathEnv where
  home : Option (List Char)
  canon : List Char → List Char

/-- The allowed-prefix list built in lines 51-59. -/
def allowed_prefixes (home : Option (List Char)) : List (List Char) :=
  (match home with
   | some h => [h ++ "/.config/".toList, h ++ "/.local/".toList]
   | none => []) ++ ["/etc/stream-linux/".toList, "/tmp/stream-linux/".toList]

/-- validate_config_path: empty path accepted unchecked (the caller then
uses the default location); a `..` substring is rejected; otherwise the
canonicalized path must start with one of the allowed prefixes
(`canonical_str.rfind(prefix, 0) == 0`). -/
def validate_config_path (env : PathEnv) (path : List Char) :
    Option (List Char) :=
  if path = [] then some path
  else if containsSub path "..".toList then none
  else
    let canonical := env.canon path
    if (allowed_prefixes env.home).any (fun p => p.isPrefixOf canonical) then
      some canonical
    else none

/-- Modelled from the spec wording of the acceptance condition —
"contains no `..` sequence and resolves under one of the user-config
directory, the user-local-data directory, /etc/&lt;app&gt;/, /tmp/&lt;app&gt;/" —
for comparison with the implementation. -/
def spec_accepts (env : PathEnv) (path : List Char) : Prop :=
  containsSub path "..".toList = false ∧
  ∃ p ∈ allowed_prefixes env.home, p.isPrefixOf (env.canon path) = true

/-- Environment with HOME=/home/user in which none of the probed paths
exist on disk, so the canonicalization try-block (lines 31-46) falls
through to `canonical = fs_path`, the identity. -/
def envBare : PathEnv := { home := some "/home/user".toList, canon := id }

/-- Claim C8 is false as stated: the spec's example
`"~/.config/app/config.toml"` is rejected, because nothing expands the
literal tilde — `std::filesystem` does no tilde expansion, so the path
never acquires the `$HOME/.config/` prefix. -/
theorem c8_counterexample :
    validate_config_path envBare "~/.config/app/config.toml".toList = none := by
  decide

/-- Claim C8 (amended): for every nonempty path, validation accepts
exactly when the path contains no `..` substring and its canonical form
starts with one of `$HOME/.config/`, `$HOME/.local/`,
`/etc/stream-linux/`, `/tmp/stream-linux/`; the empty path is accepted
without any check; `"/home/user/../../etc/passwd"` and `"/tmp/other/foo"`
are rejected, and the user-config path written absolutely,
`"/home/user/.config/app/config.toml"`, is accepted (the tilde form of
the spec's example is not, see the counterexample). -/
theorem c8_path_validation (env : PathEnv) (path : List Char)
    (hne : path ≠ []) :
    ((validate_config_path env path).isSome = true ↔ spec_accepts env path) ∧
    validate_config_path env [] = some [] ∧
    validate_config_path envBare "/home/user/../../etc/passwd".toList = none ∧
    validate_config_path envBare "/tmp/other/foo".toList = none ∧
    validate_config_path envBare "/home/user/.config/app/config.toml".toList
      = some "/home/user/.config/app/config.toml".toList := by
  refine ⟨?_, rfl, by decide, by decide, by decide⟩
  unfold validate_config_path spec_accepts
  rw [if_neg hne]
  cases hdd : containsSub path "..".toList with
  | true => simp
  | false =>
    simp only [Bool.false_eq_true, if_false]
    constructor
    · intro h
      by_cases hp : (allowed_prefixes env.home).any
          (fun p => p.isPrefixOf (env.canon path)) = true
      · exact ⟨by simp, List.any_eq_true.mp hp⟩
      · rw [if_neg hp] at h
        simp at h
    · rintro ⟨-, hex⟩
      rw [if_pos (List.any_eq_true.mpr hex)]
      rfl

/-- Witness for `c8_path_validation` at a concrete path. -/
theorem c8_path_validation_witness :
    ((validate_config_path envBare "/tmp/stream-linux/a.toml".toList).isSome = true ↔
      spec_accepts envBare "/tmp/stream-linux/a.toml".toList) ∧
    validate_config_path envBare [] = some [] ∧
    validate_config_path envBare "/home/user/../../etc/passwd".toList = none ∧
    validate_config_path envBare "/tmp/other/foo".toList = none ∧
    validate_config_path envBare "/home/user/.config/app/config.toml".toList
      = some "/home/user/.config/app/config.toml".toList :=
  c8_path_validation envBare "/tmp/stream-linux/a.toml".toList (by decide)

end ConfigPath

/-! ## TOML configuration round-trip
(linux-host/src/cli/config_manager.cpp, parse_toml lines 173-319 and
to_toml lines 321-374; CLIOptions from include/stream_linux/cli.hpp)

The TOML text is represented as its list of lines: `to_toml` produces the
'\n'-separated lines the C++ `ostringstream` emits, and `parse_toml`
consumes them exactly as the `std::getline` loop does.  This is faithful
whenever no embedded string value contains a newline (a condition the
validity predicate below imposes). -/

namespace Config

/-- Shorthand: a C++ `std::string` literal as a character list. -/
def str (s : String) : List Char := s.toList

inductive DisplayBackend where
  | Auto | X11 | Wayland
  deriving Repr, DecidableEq

inductive VideoCodec where
  | H264 | H265 | AV1 | VP9
  deriving Repr, DecidableEq

inductive HardwareEncoder where
  | None | VAAPI | NVENC | AMF | QSV
  deriving Repr, DecidableEq

inductive QualityPreset where
  | Auto | Low | Medium | High | Ultra
  deriving Repr, DecidableEq

inductive AudioSource where
  | System | Microphone | Mixed
  deriving Repr, DecidableEq

/-- CLIOptions from cli.hpp with its default member values. -/
structure CLIOptions where
  backend : DisplayBackend := .Auto
  monitor_id : Int := -1
  show_cursor : Bool := true
  codec : VideoCodec := .H264
  bitrate : Nat := 0
  fps : Nat := 60
  quality : QualityPreset := .Auto
  hw_encoder : HardwareEncoder := .None
  audio_source : AudioSource := .System
  audio_enabled : Bool := true
  bind_address : List Char := str "0.0.0.0"
  port : Nat := 0
  stun_server : List Char := []
  config_file : List Char := []
  verbose : Bool := false
  show_help : Bool := false
  show_version : Bool := false
  list_monitors : Bool := false
  list_audio_devices : Bool := false
  deriving Repr, DecidableEq

/-- Fuel-driven digit printer (structural recursion so that the kernel
can evaluate it); `natToChars` supplies enough fuel. -/
def natToCharsAux : Nat → Nat → List Char
  | 0, _ => []
  | fuel + 1, n =>
    if n < 10 then [Char.ofNat (48 + n)]
    else natToCharsAux fuel (n / 10) ++ [Char.ofNat (48 + n % 10)]

/-- Decimal digits of `n`, as `operator<<` prints an unsigned integer. -/
def natToChars (n : Nat) : List Char := natToCharsAux (n + 1) n

theorem natToCharsAux_fuel_irrel :
    ∀ f₁ f₂ n, n < f₁ → n < f₂ → natToCharsAux f₁ n = natToCharsAux f₂ n := by
  intro f₁
  induction f₁ with
  | zero => intro f₂ n h; omega
  | succ f ih =>
    intro f₂ n h₁ h₂
    cases f₂ with
    | zero => omega
    | succ g =>
      show (if n < 10 then _ else _) = (if n < 10 then _ else _)
      by_cases hn : n < 10
      · simp [hn]
      · have hdiv : n / 10 < n := Nat.div_lt_self (by omega) (by omega)
        have hd : n / 10 < f := by omega
        have hd2 : n / 10 < g := by omega
        simp only [if_neg hn]
        rw [ih g (n / 10) hd hd2]

/-- The natural unfolding equation of `natToChars`. -/
theorem natToChars_eq (n : Nat) :
    natToChars n = if n < 10 then [Char.ofNat (48 + n)]
      else natToChars (n / 10) ++ [Char.ofNat (48 + n % 10)] := by
  show natToCharsAux (n + 1) n = _
  by_cases hn : n < 10
  · simp [natToCharsAux, hn]
  · have hd : n / 10 < n := Nat.div_lt_self (by omega) (by omega)
    simp only [natToCharsAux, if_neg hn]
    rw [natToCharsAux_fuel_irrel n (n / 10 + 1) (n / 10) hd (by omega)]
    rfl

/-- `operator<<` on a signed integer. -/
def intToChars (m : Int) : List Char :=
  if m < 0 then '-' :: natToChars m.natAbs else natToChars m.toNat

/-- `operator<<` on a bool after `(b ? "true" : "false")`. -/
def boolChars (b : Bool) : List Char := if b then str "true" else str "false"

/-- backend_to_string from common.hpp (lines 161-167). -/
def backend_to_string : DisplayBackend → List Char
  | .Auto => str "auto"
  | .X11 => str "x11"
  | .Wayland => str "wayland"

/-- The codec switch in to_toml (lines 332-337). -/
def codec_toml : VideoCodec → List Char
  | .H264 => str "h264"
  | .H265 => str "h265"
  | .VP9 => str "vp9"
  | .AV1 => str "av1"

/-- The quality switch in to_toml (lines 344-350). -/
def quality_toml : QualityPreset → List Char
  | .Auto => str "auto"
  | .Low => str "low"
  | .Medium => str "medium"
  | .High => str "high"
  | .Ultra => str "ultra"

/-- The audio-source switch in to_toml (lines 355-359). -/
def source_toml : AudioSource → List Char
  | .System => str "system"
  | .Microphone => str "microphone"
  | .Mixed => str "mixed"

/-- A `key = value` line. -/
def kvLine (k v : List Char) : List Char := k ++ ' ' :: '=' :: ' ' :: v

/-- `"value"` as written for string-typed keys. -/
def quoteWrap (s : List Char) : List Char := '"' :: s ++ ['"']

/-- ConfigManager::to_toml (lines 321-374), as its list of output lines
(the `\n\n` separators produce the interior empty lines; the final
newline produces no extra line under `std::getline`). -/
def to_toml (o : CLIOptions) : List (List Char) :=
  [str "# stream-linux configuration", [],
   str "[display]",
   kvLine (str "backend") (quoteWrap (backend_to_string o.backend)),
   kvLine (str "monitor") (intToChars o.monitor_id),
   kvLine (str "show_cursor") (boolChars o.show_cursor), [],
   str "[video]",
   kvLine (str "codec") (quoteWrap (codec_toml o.codec)),
   (if o.bitrate = 0 then kvLine (str "bitrate") (quoteWrap (str "auto"))
    else kvLine (str "bitrate") (natToChars o.bitrate)),
   kvLine (str "fps") (natToChars o.fps),
   kvLine (str "quality") (quoteWrap (quality_toml o.quality)), [],
   str "[audio]",
   kvLine (str "enabled") (boolChars o.audio_enabled),
   kvLine (str "source") (quoteWrap (source_toml o.audio_source)), [],
   str "[network]",
   kvLine (str "bind_address") (quoteWrap o.bind_address),
   kvLine (str "port") (natToChars o.port)] ++
  (if o.stun_server = [] then []
   else [kvLine (str "stun_server") (quoteWrap o.stun_server)]) ++
  [[],
   str "[logging]",
   kvLine (str "verbose") (boolChars o.verbose)]

def isSpaceTab (c : Char) : Bool := c = ' ' || c = '\t'

def isTrimmable (c : Char) : Bool :=
  c = ' ' || c = '\t' || c = '\r' || c = '\n'

/-- The quote-stripping step of parse_toml (lines 214-216). -/
def stripQuotes (v : List Char) : List Char :=
  if 2 ≤ v.length ∧ v.head? = some '"' ∧ v.getLast? = some '"' then
    (v.drop 1).dropLast
  else v

/-- Split at the first `'='` (`line.find('=')`), returning the parts
before and after it. -/
def splitEq : List Char → Option (List Char × List Char)
  | [] => none
  | c :: rest =>
    if c = '=' then some ([], rest)
    else (splitEq rest).map (fun p => (c :: p.1, p.2))

/-- What one iteration of the parse_toml loop extracts from a line. -/
inductive Lex where
  | skip
  | sec (name : List Char)
  | kv (key value : List Char)
  deriving Repr, DecidableEq

/-- The trailing trim of parse_toml (lines 191-192): drop the trailing
run of " \t\r\n" characters.  The C++ computes `find_last_not_of` over
the whole comment-stripped line and takes
`substr(start, end − start + 1)`; when everything after `start` is
trimmable, `end = npos` makes the length wrap around to "rest of
string", so the untrimmed remainder is kept — hence the fallback
branch. -/
def trimEnd (rest : List Char) : List Char :=
  let r2 := (rest.reverse.dropWhile isTrimmable).reverse
  if r2.isEmpty then rest else r2

/-- The section/key-value dissection of a fully trimmed line
(parse_toml lines 194-216). -/
def lexCore (line : List Char) : Lex :=
  if line.isEmpty then .skip
  else if line.head? = some '[' ∧ line.getLast? = some ']' then
    .sec ((line.drop 1).dropLast)
  else
    match splitEq line with
    | none => .skip
    | some (k, v) =>
      .kv ((k.reverse.dropWhile isSpaceTab).reverse)
        (stripQuotes (v.dropWhile isSpaceTab))

/-- Lines whose leading trim leaves nothing are skipped
(`start == npos → continue`, line 190). -/
def lexAfterComment (rest : List Char) : Lex :=
  if rest.isEmpty then .skip else lexCore (trimEnd rest)

/-- The per-line lexing of parse_toml (lines 182-216): comment strip at
the first `'#'`, leading " \t" trim, then `lexAfterComment`. -/
def lexLine (l0 : List Char) : Lex :=
  lexAfterComment ((l0.takeWhile (fun c => !(c == '#'))).dropWhile isSpaceTab)

/-- The key/value dispatch of parse_toml (lines 219-315).  `none` models
an error `Result`; unknown sections, keys and enum values fall through
silently exactly as the C++ if-chains do. -/
def applyKV (sec key value : List Char) (o : CLIOptions) : Option CLIOptions :=
  if sec = str "display" then
    if key = str "backend" then
      if value = str "x11" then some { o with backend := .X11 }
      else if value = str "wayland" then some { o with backend := .Wayland }
      else some o
    else if key = str "monitor" then
      match stol value with
      | none => none
      | some v =>
        if v < -1 ∨ 255 < v then none else some { o with monitor_id := v }
    else if key = str "show_cursor" then
      some { o with show_cursor := value = str "true" }
    else some o
  else if sec = str "video" then
    if key = str "codec" then
      if value = str "h265" then some { o with codec := .H265 }
      else if value = str "vp9" then some { o with codec := .VP9 }
      else if value = str "av1" then some { o with codec := .AV1 }
      else some o
    else if key = str "bitrate" then
      if value = str "auto" then some o
      else
        match stoul value with
        | none => none
        | some v =>
          if v < 100000 ∨ 100000000 < v then none
          else some { o with bitrate := v }
    else if key = str "fps" then
      match stoul value with
      | none => none
      | some v =>
        if v < 1 ∨ 240 < v then none else some { o with fps := v }
    else if key = str "quality" then
      if value = str "low" then some { o with quality := .Low }
      else if value = str "medium" then some { o with quality := .Medium }
      else if value = str "high" then some { o with quality := .High }
      else if value = str "ultra" then some { o with quality := .Ultra }
      else some o
    else some o
  else if sec = str "audio" then
    if key = str "enabled" then
      some { o with audio_enabled := value = str "true" }
    else if key = str "source" then
      if value = str "microphone" then some { o with audio_source := .Microphone }
      else if value = str "mixed" then some { o with audio_source := .Mixed }
      else some o
    else some o
  else if sec = str "network" then
    if key = str "bind_address" then some { o with bind_address := value }
    else if key = str "port" then
      match stoul value with
      | none => none
      | some v =>
        if v < 1024 ∨ 65535 < v then none else some { o with port := v }
    else if key = str "stun_server" then some { o with stun_server := value }
    else some o
  else if sec = str "logging" then
    if key = str "verbose" then some { o with verbose := value = str "true" }
    else some o
  else some o

/-- The parse_toml line loop, carrying `current_section` and the options
being built. -/
def parseLines : List (List Char) → List Char → CLIOptions → Option CLIOptions
  | [], _, o => some o
  | l :: ls, sec, o =>
    match lexLine l with
    | .skip => parseLines ls sec o
    | .sec s => parseLines ls s o
    | .kv k v =>
      match applyKV sec k v o with
      | none => none
      | some o2 => parseLines ls sec o2

/-- ConfigManager::parse_toml: start with default options and an empty
current section. -/
def parse_toml (lines : List (List Char)) : Option CLIOptions :=
  parseLines lines [] {}

/-! Helper lemmas for the round-trip proof: digit characters, decimal
round-trips, and the behaviour of the lexer on `key = value` lines. -/

theorem digitChar_props (n : Nat) (h : n < 10) :
    (Char.ofNat (48 + n)).isDigit = true ∧
    (Char.ofNat (48 + n)).toNat = 48 + n ∧
    Char.ofNat (48 + n) ≠ '#' ∧ Char.ofNat (48 + n) ≠ '"' ∧
    Char.ofNat (48 + n) ≠ '[' ∧ Char.ofNat (48 + n) ≠ '=' ∧
    Char.ofNat (48 + n) ≠ '-' ∧ Char.ofNat (48 + n) ≠ '+' ∧
    isSpaceTab (Char.ofNat (48 + n)) = false ∧
    isTrimmable (Char.ofNat (48 + n)) = false ∧
    isCppSpace (Char.ofNat (48 + n)) = false := by
  interval_cases n <;> decide

theorem natToChars_ne_nil (n : Nat) : natToChars n ≠ [] := by
  rw [natToChars_eq]
  by_cases h : n < 10 <;> simp [h]

theorem natToChars_mem (n : Nat) :
    ∀ c ∈ natToChars n, ∃ k, k < 10 ∧ c = Char.ofNat (48 + k) := by
  induction n using Nat.strong_induction_on with
  | _ n ih =>
    rw [natToChars_eq]
    by_cases h : n < 10
    · simp only [if_pos h, List.mem_singleton]
      intro c hc
      exact ⟨n, h, hc⟩
    · simp only [if_neg h, List.mem_append, List.mem_singleton]
      intro c hc
      rcases hc with hc | hc
      · exact ih (n / 10) (Nat.div_lt_self (by omega) (by omega)) c hc
      · exact ⟨n % 10, Nat.mod_lt _ (by omega), hc⟩

theorem natToChars_foldl (n : Nat) :
    ∀ a, (natToChars n).foldl (fun acc c => acc * 10 + (c.toNat - 48)) a
      = a * 10 ^ (natToChars n).length + n := by
  induction n using Nat.strong_induction_on with
  | _ n ih =>
    intro a
    rw [natToChars_eq]
    by_cases h : n < 10
    · simp only [if_pos h, List.foldl_cons, List.foldl_nil, List.length_singleton]
      rw [(digitChar_props n h).2.1]
      omega
    · simp only [if_neg h, List.foldl_append, List.foldl_cons, List.foldl_nil,
        List.length_append, List.length_singleton]
      rw [ih (n / 10) (Nat.div_lt_self (by omega) (by omega)) a]
      rw [(digitChar_props (n % 10) (Nat.mod_lt _ (by omega))).2.1]
      have hsub : 48 + n % 10 - 48 = n % 10 := by omega
      rw [hsub]
      calc (a * 10 ^ (natToChars (n / 10)).length + n / 10) * 10 + n % 10
          = a * (10 ^ (natToChars (n / 10)).length * 10)
              + (10 * (n / 10) + n % 10) := by ring
        _ = a * 10 ^ ((natToChars (n / 10)).length + 1) + n := by
            rw [← pow_succ, Nat.div_add_mod]

theorem takeWhile_of_all {α} (p : α → Bool) :
    ∀ l : List α, (∀ c ∈ l, p c = true) → l.takeWhile p = l := by
  intro l h
  induction l with
  | nil => rfl
  | cons c t ih =>
    rw [List.takeWhile_cons, if_pos (h c (List.mem_cons_self c t))]
    exact congrArg (c :: ·) (ih fun x hx => h x (by simp [hx]))

theorem dropWhile_cons_false {α} (p : α → Bool) (c : α) (l : List α)
    (h : p c = false) : (c :: l).dropWhile p = c :: l := by
  simp [List.dropWhile_cons, h]

theorem dropWhile_cons_true {α} (p : α → Bool) (c : α) (l : List α)
    (h : p c = true) : (c :: l).dropWhile p = l.dropWhile p := by
  simp [List.dropWhile_cons, h]

theorem natToChars_isDigit (n : Nat) :
    ∀ c ∈ natToChars n, c.isDigit = true := by
  intro c hc
  obtain ⟨k, hk, rfl⟩ := natToChars_mem n c hc
  exact (digitChar_props k hk).1

theorem parseDigits_natToChars (n : Nat) :
    parseDigits (natToChars n) = some n := by
  unfold parseDigits
  rw [takeWhile_of_all _ _ (natToChars_isDigit n)]
  rw [if_neg (by simp [natToChars_ne_nil n])]
  unfold digitsToNat
  rw [natToChars_foldl n 0]
  simp

theorem natToChars_head (n : Nat) :
    ∃ k t, k < 10 ∧ natToChars n = Char.ofNat (48 + k) :: t := by
  obtain ⟨c, t, hct⟩ := List.exists_cons_of_ne_nil (natToChars_ne_nil n)
  obtain ⟨k, hk, rfl⟩ := natToChars_mem n c (by rw [hct]; simp)
  exact ⟨k, t, hk, hct⟩

theorem stoul_natToChars (n : Nat) : stoul (natToChars n) = some n := by
  obtain ⟨k, t, hk, hct⟩ := natToChars_head n
  unfold stoul
  rw [hct, dropWhile_cons_false _ _ _ (digitChar_props k hk).2.2.2.2.2.2.2.2.2.2,
    ← hct]
  exact parseDigits_natToChars n

theorem stol_cons (c : Char) (rest : List Char) (h : isCppSpace c = false) :
    stol (c :: rest) =
      if c = '-' then (parseDigits rest).map (fun n => -(n : Int))
      else if c = '+' then (parseDigits rest).map (fun n => (n : Int))
      else (parseDigits (c :: rest)).map (fun n => (n : Int)) := by
  unfold stol
  rw [dropWhile_cons_false _ _ _ h]

theorem stol_natToChars (n : Nat) : stol (natToChars n) = some n := by
  obtain ⟨k, t, hk, hct⟩ := natToChars_head n
  have hp := digitChar_props k hk
  rw [hct, stol_cons _ _ hp.2.2.2.2.2.2.2.2.2.2,
    if_neg hp.2.2.2.2.2.2.1, if_neg hp.2.2.2.2.2.2.2.1, ← hct,
    parseDigits_natToChars n]
  rfl

theorem stol_intToChars (m : Int) : stol (intToChars m) = some m := by
  unfold intToChars
  by_cases hm : m < 0
  · rw [if_pos hm, stol_cons _ _ (by decide), if_pos rfl,
      parseDigits_natToChars]
    have hneg : -((m.natAbs : Int)) = m := by omega
    show some (-((m.natAbs : Int))) = some m
    rw [hneg]
  · rw [if_neg hm, stol_natToChars]
    have hpos : ((m.toNat : Int)) = m := by omega
    show some ((m.toNat : Int)) = some m
    rw [hpos]

theorem getLast?_app {α} (l1 l2 : List α) (h : l2 ≠ []) :
    (l1 ++ l2).getLast? = l2.getLast? := by
  obtain ⟨t, a, rfl⟩ := (List.eq_nil_or_concat' l2).resolve_left h
  rw [← List.append_assoc, List.getLast?_concat, List.getLast?_concat]

theorem reverse_dropWhile_id (p : Char → Bool) (l : List Char) (hne : l ≠ [])
    (h : ∀ c, l.getLast? = some c → p c = false) :
    (l.reverse.dropWhile p).reverse = l := by
  obtain ⟨t, a, rfl⟩ := (List.eq_nil_or_concat' l).resolve_left hne
  rw [List.reverse_append]
  simp only [List.reverse_cons, List.reverse_nil, List.nil_append,
    List.singleton_append]
  rw [dropWhile_cons_false p a _ (h a (List.getLast?_concat t))]
  simp

theorem splitEq_left (xs ys : List Char) (h : ∀ c ∈ xs, c ≠ '=') :
    splitEq (xs ++ '=' :: ys) = some (xs, ys) := by
  induction xs with
  | nil => rfl
  | cons c t ih =>
    have hc : c ≠ '=' := h c (List.mem_cons_self c t)
    rw [List.cons_append]
    show (if c = '=' then some ([], t ++ '=' :: ys)
      else (splitEq (t ++ '=' :: ys)).map fun p => (c :: p.1, p.2)) = _
    rw [if_neg hc, ih (fun x hx => h x (List.mem_cons_of_mem _ hx))]
    rfl

theorem stripQuotes_quoteWrap (s : List Char) :
    stripQuotes (quoteWrap s) = s := by
  unfold stripQuotes quoteWrap
  rw [if_pos]
  · show (('"' :: (s ++ ['"'])).drop 1).dropLast = s
    simp
  · refine ⟨?_, rfl, ?_⟩
    · show 2 ≤ ('"' :: (s ++ ['"'])).length
      simp only [List.length_cons, List.length_append, List.length_singleton]
      omega
    · show ('"' :: (s ++ ['"'])).getLast? = some '"'
      rw [show ('"' :: (s ++ ['"'])) = ('"' :: s) ++ ['"'] by simp]
      exact List.getLast?_concat _

theorem stripQuotes_id_of_head (v : List Char) (h : v.head? ≠ some '"') :
    stripQuotes v = v := by
  unfold stripQuotes
  rw [if_neg]
  rintro ⟨-, h2, -⟩
  exact h h2

theorem trimEnd_id (l : List Char) (hne : l ≠ [])
    (h : ∀ c, l.getLast? = some c → isTrimmable c = false) :
    trimEnd l = l := by
  unfold trimEnd
  show (if ((l.reverse.dropWhile isTrimmable).reverse).isEmpty then l
    else (l.reverse.dropWhile isTrimmable).reverse) = l
  rw [reverse_dropWhile_id isTrimmable l hne h]
  rw [if_neg (by simpa [List.isEmpty_iff] using hne)]

theorem lexCore_eq (x y : List Char)
    (hxne : x ≠ [])
    (hxh : ∀ c, x.head? = some c → c ≠ '[')
    (hxeq : ∀ c ∈ x, c ≠ '=') :
    lexCore (x ++ '=' :: y)
      = .kv ((x.reverse.dropWhile isSpaceTab).reverse)
        (stripQuotes (y.dropWhile isSpaceTab)) := by
  obtain ⟨xh, xt, rfl⟩ := List.exists_cons_of_ne_nil hxne
  unfold lexCore
  rw [List.cons_append]
  rw [if_neg (by simp)]
  rw [if_neg ?hsec]
  case hsec =>
    rintro ⟨hhead, -⟩
    exact hxh xh rfl (by simpa using hhead)
  rw [← List.cons_append, splitEq_left _ _ hxeq]

theorem lexLine_kv (k v : List Char)
    (hkne : k ≠ [])
    (hkc : ∀ c ∈ k, c ≠ '#' ∧ c ≠ '=' ∧ c ≠ '[' ∧
      isSpaceTab c = false ∧ isTrimmable c = false)
    (hvne : v ≠ [])
    (hvc : ∀ c ∈ v, c ≠ '#')
    (hvh : ∀ c, v.head? = some c → isSpaceTab c = false)
    (hvl : ∀ c, v.getLast? = some c → isTrimmable c = false) :
    lexLine (kvLine k v) = .kv k (stripQuotes v) := by
  obtain ⟨kh, kt, hkcons⟩ := List.exists_cons_of_ne_nil hkne
  have hkh := hkc kh (hkcons ▸ List.mem_cons_self kh kt)
  have hlineform : kvLine k v = kh :: (kt ++ ' ' :: '=' :: ' ' :: v) := by
    rw [hkcons]
    simp [kvLine]
  have h1 : (kvLine k v).takeWhile (fun c => !(c == '#')) = kvLine k v := by
    apply takeWhile_of_all
    intro c hc
    have hcn : c ≠ '#' := by
      unfold kvLine at hc
      rcases List.mem_append.mp hc with hc2 | hc2
      · exact (hkc c hc2).1
      rcases List.mem_cons.mp hc2 with rfl | hc3
      · decide
      rcases List.mem_cons.mp hc3 with rfl | hc4
      · decide
      rcases List.mem_cons.mp hc4 with rfl | hc5
      · decide
      · exact hvc c hc5
    simpa using hcn
  have h2 : (kvLine k v).dropWhile isSpaceTab = kvLine k v := by
    rw [hlineform]
    exact dropWhile_cons_false _ _ _ hkh.2.2.2.1
  have h3 : trimEnd (kvLine k v) = kvLine k v := by
    apply trimEnd_id _ (by rw [hlineform]; simp)
    intro c hc
    rw [show kvLine k v = (k ++ [' ', '=', ' ']) ++ v by simp [kvLine],
      getLast?_app _ _ hvne] at hc
    exact hvl c hc
  unfold lexLine lexAfterComment
  rw [h1, h2, if_neg (by rw [hlineform]; simp), h3]
  rw [show kvLine k v = (k ++ [' ']) ++ '=' :: (' ' :: v) by simp [kvLine]]
  rw [lexCore_eq _ _ (by simp [hkcons]) ?hxh ?hxeq]
  case hxh =>
    intro c hc
    rw [hkcons] at hc
    simp only [List.cons_append, List.head?_cons, Option.some.injEq] at hc
    exact hc ▸ hkh.2.2.1
  case hxeq =>
    intro c hc
    rcases List.mem_append.mp hc with hc2 | hc2
    · exact (hkc c hc2).2.1
    · simp only [List.mem_singleton] at hc2
      rw [hc2]
      decide
  congr 1
  · rw [show (k ++ [' ']).reverse = ' ' :: k.reverse by simp]
    rw [dropWhile_cons_true _ _ _ (by decide)]
    apply reverse_dropWhile_id _ _ hkne
    intro c hc
    exact (hkc c (List.mem_of_mem_getLast? hc)).2.2.2.1
  · congr 1
    rw [dropWhile_cons_true _ _ _ (by decide)]
    obtain ⟨vh, vt, rfl⟩ := List.exists_cons_of_ne_nil hvne
    exact dropWhile_cons_false _ _ _ (hvh vh rfl)

theorem natToChars_conds (n : Nat) :
    (∀ c ∈ natToChars n, c ≠ '#') ∧
    (∀ c, (natToChars n).head? = some c → isSpaceTab c = false) ∧
    (∀ c, (natToChars n).getLast? = some c → isTrimmable c = false) ∧
    (natToChars n).head? ≠ some '"' := by
  have hmem : ∀ c ∈ natToChars n, c ≠ '#' ∧ isSpaceTab c = false ∧
      isTrimmable c = false ∧ c ≠ '"' := by
    intro c hc
    obtain ⟨k, hk, rfl⟩ := natToChars_mem n c hc
    have hp := digitChar_props k hk
    exact ⟨hp.2.2.1, hp.2.2.2.2.2.2.2.2.1, hp.2.2.2.2.2.2.2.2.2.1, hp.2.2.2.1⟩
  refine ⟨fun c hc => (hmem c hc).1, ?_, ?_, ?_⟩
  · intro c hc
    exact (hmem c (List.mem_of_mem_head? hc)).2.1
  · intro c hc
    exact (hmem c (List.mem_of_mem_getLast? hc)).2.2.1
  · intro hq
    exact (hmem '"' (List.mem_of_mem_head? hq)).2.2.2 rfl

theorem intToChars_conds (m : Int) :
    intToChars m ≠ [] ∧
    (∀ c ∈ intToChars m, c ≠ '#') ∧
    (∀ c, (intToChars m).head? = some c → isSpaceTab c = false) ∧
    (∀ c, (intToChars m).getLast? = some c → isTrimmable c = false) ∧
    (intToChars m).head? ≠ some '"' := by
  unfold intToChars
  by_cases hm : m < 0
  · rw [if_pos hm]
    obtain ⟨h1, h2, h3, h4⟩ := natToChars_conds m.natAbs
    refine ⟨by simp, ?_, ?_, ?_, by simp⟩
    · intro c hc
      rcases List.mem_cons.mp hc with rfl | hc2
      · decide
      · exact h1 c hc2
    · intro c hc
      simp only [List.head?_cons, Option.some.injEq] at hc
      rw [← hc]
      decide
    · intro c hc
      rw [show ('-' :: natToChars m.natAbs) = ['-'] ++ natToChars m.natAbs by simp,
        getLast?_app _ _ (natToChars_ne_nil _)] at hc
      exact h3 c hc
  · rw [if_neg hm]
    obtain ⟨h1, h2, h3, h4⟩ := natToChars_conds m.toNat
    exact ⟨natToChars_ne_nil _, h1, h2, h3, h4⟩

/-- A key/value line whose value is a decimal natural. -/
theorem lex_kv_nat (k : List Char) (hkne : k ≠ [])
    (hkc : ∀ c ∈ k, c ≠ '#' ∧ c ≠ '=' ∧ c ≠ '[' ∧
      isSpaceTab c = false ∧ isTrimmable c = false) (n : Nat) :
    lexLine (kvLine k (natToChars n)) = .kv k (natToChars n) := by
  obtain ⟨h1, h2, h3, h4⟩ := natToChars_conds n
  rw [lexLine_kv k _ hkne hkc (natToChars_ne_nil n) h1 h2 h3,
    stripQuotes_id_of_head _ h4]

/-- A key/value line whose value is a quoted string. -/
theorem lex_kv_quoted (k s : List Char) (hkne : k ≠ [])
    (hkc : ∀ c ∈ k, c ≠ '#' ∧ c ≠ '=' ∧ c ≠ '[' ∧
      isSpaceTab c = false ∧ isTrimmable c = false)
    (hs : ∀ c ∈ s, c ≠ '#') :
    lexLine (kvLine k (quoteWrap s)) = .kv k s := by
  rw [lexLine_kv k _ hkne hkc (by simp [quoteWrap]) ?vc ?vh ?vl,
    stripQuotes_quoteWrap]
  case vc =>
    intro c hc
    unfold quoteWrap at hc
    rcases List.mem_cons.mp hc with rfl | hc2
    · decide
    rcases List.mem_append.mp hc2 with hc3 | hc3
    · exact hs c hc3
    · simp only [List.mem_singleton] at hc3
      rw [hc3]
      decide
  case vh =>
    intro c hc
    have h3 : some '"' = some c := hc
    rw [← Option.some.inj h3]
    decide
  case vl =>
    intro c hc
    rw [show quoteWrap s = ('"' :: s) ++ ['"'] by simp [quoteWrap],
      List.getLast?_concat] at hc
    have h3 : some '"' = some c := hc
    rw [← Option.some.inj h3]
    decide

theorem lex_comment :
    lexLine (str "# stream-linux configuration") = .skip := by decide

theorem lex_blank : lexLine [] = .skip := by decide

theorem lex_display : lexLine (str "[display]") = .sec (str "display") := by
  decide

theorem lex_video : lexLine (str "[video]") = .sec (str "video") := by decide

theorem lex_audio : lexLine (str "[audio]") = .sec (str "audio") := by decide

theorem lex_network : lexLine (str "[network]") = .sec (str "network") := by
  decide

theorem lex_logging : lexLine (str "[logging]") = .sec (str "logging") := by
  decide

theorem lex_backend (b : DisplayBackend) :
    lexLine (kvLine (str "backend") (quoteWrap (backend_to_string b)))
      = .kv (str "backend") (backend_to_string b) := by
  cases b <;> decide

theorem lex_monitor (m : Int) :
    lexLine (kvLine (str "monitor") (intToChars m))
      = .kv (str "monitor") (intToChars m) := by
  obtain ⟨h0, h1, h2, h3, h4⟩ := intToChars_conds m
  rw [lexLine_kv _ _ (by decide) (by decide) h0 h1 h2 h3,
    stripQuotes_id_of_head _ h4]

theorem lex_show_cursor (b : Bool) :
    lexLine (kvLine (str "show_cursor") (boolChars b))
      = .kv (str "show_cursor") (boolChars b) := by
  cases b <;> decide

theorem lex_codec (c : VideoCodec) :
    lexLine (kvLine (str "codec") (quoteWrap (codec_toml c)))
      = .kv (str "codec") (codec_toml c) := by
  cases c <;> decide

theorem lex_bitrate_auto :
    lexLine (kvLine (str "bitrate") (quoteWrap (str "auto")))
      = .kv (str "bitrate") (str "auto") := by decide

theorem lex_bitrate (n : Nat) :
    lexLine (kvLine (str "bitrate") (natToChars n))
      = .kv (str "bitrate") (natToChars n) :=
  lex_kv_nat _ (by decide) (by decide) n

theorem lex_fps (n : Nat) :
    lexLine (kvLine (str "fps") (natToChars n))
      = .kv (str "fps") (natToChars n) :=
  lex_kv_nat _ (by decide) (by decide) n

theorem lex_quality (q : QualityPreset) :
    lexLine (kvLine (str "quality") (quoteWrap (quality_toml q)))
      = .kv (str "quality") (quality_toml q) := by
  cases q <;> decide

theorem lex_enabled (b : Bool) :
    lexLine (kvLine (str "enabled") (boolChars b))
      = .kv (str "enabled") (boolChars b) := by
  cases b <;> decide

theorem lex_source (s : AudioSource) :
    lexLine (kvLine (str "source") (quoteWrap (source_toml s)))
      = .kv (str "source") (source_toml s) := by
  cases s <;> decide

theorem lex_bind (s : List Char) (hs : ∀ c ∈ s, c ≠ '#') :
    lexLine (kvLine (str "bind_address") (quoteWrap s))
      = .kv (str "bind_address") s :=
  lex_kv_quoted _ s (by decide) (by decide) hs

theorem lex_port (n : Nat) :
    lexLine (kvLine (str "port") (natToChars n))
      = .kv (str "port") (natToChars n) :=
  lex_kv_nat _ (by decide) (by decide) n

theorem lex_stun (s : List Char) (hs : ∀ c ∈ s, c ≠ '#') :
    lexLine (kvLine (str "stun_server") (quoteWrap s))
      = .kv (str "stun_server") s :=
  lex_kv_quoted _ s (by decide) (by decide) hs

theorem lex_verbose (b : Bool) :
    lexLine (kvLine (str "verbose") (boolChars b))
      = .kv (str "verbose") (boolChars b) := by
  cases b <;> decide

theorem parseLines_skip {l : List Char} {ls : List (List Char)}
    {sec : List Char} {o : CLIOptions} (h : lexLine l = .skip) :
    parseLines (l :: ls) sec o = parseLines ls sec o := by
  simp only [parseLines, h]

theorem parseLines_sec {l : List Char} {ls : List (List Char)}
    {sec s : List Char} {o : CLIOptions} (h : lexLine l = .sec s) :
    parseLines (l :: ls) sec o = parseLines ls s o := by
  simp only [parseLines, h]

theorem parseLines_kv {l : List Char} {ls : List (List Char)}
    {sec k v : List Char} {o o2 : CLIOptions} (h : lexLine l = .kv k v)
    (h2 : applyKV sec k v o = some o2) :
    parseLines (l :: ls) sec o = parseLines ls sec o2 := by
  simp only [parseLines, h, h2]

theorem applyKV_backend (b : DisplayBackend) (o : CLIOptions)
    (ho : o.backend = .Auto) :
    applyKV (str "display") (str "backend") (backend_to_string b) o
      = some { o with backend := b } := by
  cases b
  · show some o = some { o with backend := DisplayBackend.Auto }
    rw [← ho]
  · rfl
  · rfl

theorem applyKV_monitor (m : Int) (o : CLIOptions) (h1 : -1 ≤ m)
    (h2 : m ≤ 255) :
    applyKV (str "display") (str "monitor") (intToChars m) o
      = some { o with monitor_id := m } := by
  unfold applyKV
  rw [if_pos rfl, if_neg (by decide), if_pos rfl, stol_intToChars m]
  show (if m < -1 ∨ 255 < m then none else some { o with monitor_id := m }) = _
  rw [if_neg (by omega)]

theorem applyKV_show_cursor (b : Bool) (o : CLIOptions) :
    applyKV (str "display") (str "show_cursor") (boolChars b) o
      = some { o with show_cursor := b } := by
  cases b <;> rfl

theorem applyKV_codec (c : VideoCodec) (o : CLIOptions)
    (ho : o.codec = .H264) :
    applyKV (str "video") (str "codec") (codec_toml c) o
      = some { o with codec := c } := by
  cases c
  · show some o = some { o with codec := VideoCodec.H264 }
    rw [← ho]
  · rfl
  · rfl
  · rfl

theorem applyKV_bitrate_auto (o : CLIOptions) :
    applyKV (str "video") (str "bitrate") (str "auto") o = some o := rfl

theorem natToChars_ne_auto (n : Nat) : natToChars n ≠ str "auto" := by
  intro h
  have hmem : 'a' ∈ natToChars n := by
    rw [h]
    decide
  obtain ⟨k, hk, hak⟩ := natToChars_mem n 'a' hmem
  have htn := (digitChar_props k hk).2.1
  rw [← hak] at htn
  have h97 : ('a').toNat = 97 := rfl
  omega

theorem applyKV_bitrate (n : Nat) (o : CLIOptions) (h1 : 100000 ≤ n)
    (h2 : n ≤ 100000000) :
    applyKV (str "video") (str "bitrate") (natToChars n) o
      = some { o with bitrate := n } := by
  unfold applyKV
  rw [if_neg (by decide), if_pos rfl, if_neg (by decide), if_pos rfl,
    if_neg (natToChars_ne_auto n), stoul_natToChars n]
  show (if n < 100000 ∨ 100000000 < n then none
    else some { o with bitrate := n }) = _
  rw [if_neg (by omega)]

theorem applyKV_fps (n : Nat) (o : CLIOptions) (h1 : 1 ≤ n) (h2 : n ≤ 240) :
    applyKV (str "video") (str "fps") (natToChars n) o
      = some { o with fps := n } := by
  unfold applyKV
  rw [if_neg (by decide), if_pos rfl, if_neg (by decide), if_neg (by decide),
    if_pos rfl, stoul_natToChars n]
  show (if n < 1 ∨ 240 < n then none else some { o with fps := n }) = _
  rw [if_neg (by omega)]

theorem applyKV_quality (q : QualityPreset) (o : CLIOptions)
    (ho : o.quality = .Auto) :
    applyKV (str "video") (str "quality") (quality_toml q) o
      = some { o with quality := q } := by
  cases q
  · show some o = some { o with quality := QualityPreset.Auto }
    rw [← ho]
  · rfl
  · rfl
  · rfl
  · rfl

theorem applyKV_enabled (b : Bool) (o : CLIOptions) :
    applyKV (str "audio") (str "enabled") (boolChars b) o
      = some { o with audio_enabled := b } := by
  cases b <;> rfl

theorem applyKV_source (s : AudioSource) (o : CLIOptions)
    (ho : o.audio_source = .System) :
    applyKV (str "audio") (str "source") (source_toml s) o
      = some { o with audio_source := s } := by
  cases s
  · show some o = some { o with audio_source := AudioSource.System }
    rw [← ho]
  · rfl
  · rfl

theorem applyKV_bind (s : List Char) (o : CLIOptions) :
    applyKV (str "network") (str "bind_address") s o
      = some { o with bind_address := s } := rfl

theorem applyKV_port (n : Nat) (o : CLIOptions) (h1 : 1024 ≤ n)
    (h2 : n ≤ 65535) :
    applyKV (str "network") (str "port") (natToChars n) o
      = some { o with port := n } := by
  unfold applyKV
  rw [if_neg (by decide), if_neg (by decide), if_neg (by decide), if_pos rfl,
    if_neg (by decide), if_pos rfl, stoul_natToChars n]
  show (if n < 1024 ∨ 65535 < n then none else some { o with port := n }) = _
  rw [if_neg (by omega)]

theorem applyKV_stun (s : List Char) (o : CLIOptions) :
    applyKV (str "network") (str "stun_server") s o
      = some { o with stun_server := s } := rfl

theorem applyKV_verbose (b : Bool) (o : CLIOptions) :
    applyKV (str "logging") (str "verbose") (boolChars b) o
      = some { o with verbose := b } := by
  cases b <;> rfl

/-- The validity predicate of the amended round-trip claim: all
serialized fields in their documented ranges, string values free of the
characters the line format cannot carry (`'#'` starts a comment, `'\n'`
ends a line), and the fields `to_toml` never writes (`hw_encoder`,
`config_file`, and the four CLI action flags) at their defaults. -/
def ValidOptions (o : CLIOptions) : Prop :=
  (-1 ≤ o.monitor_id ∧ o.monitor_id ≤ 255) ∧
  (o.bitrate = 0 ∨ (100000 ≤ o.bitrate ∧ o.bitrate ≤ 100000000)) ∧
  (1 ≤ o.fps ∧ o.fps ≤ 240) ∧
  (1024 ≤ o.port ∧ o.port ≤ 65535) ∧
  (∀ c ∈ o.bind_address, c ≠ '#' ∧ c ≠ '\n') ∧
  (∀ c ∈ o.stun_server, c ≠ '#' ∧ c ≠ '\n') ∧
  o.hw_encoder = .None ∧ o.config_file = [] ∧
  o.show_help = false ∧ o.show_version = false ∧
  o.list_monitors = false ∧ o.list_audio_devices = false

/-- An options struct with every field in its documented range
(hw_encoder "auto"/VAAPI/... is a documented `[video]` key in the
cli.hpp example config). -/
def c9CexOptions : CLIOptions := { port := 1024, hw_encoder := .VAAPI }

/-- Claim C9 is false as stated: to_toml never writes `hw_encoder` (nor
`config_file` or the action flags), and parse_toml never reads it, so an
options struct with `hw_encoder = VAAPI` round-trips to one with
`hw_encoder = None`. -/
theorem c9_counterexample :
    parse_toml (to_toml c9CexOptions)
      = some { c9CexOptions with hw_encoder := .None } ∧
    ({ c9CexOptions with hw_encoder := .None } : CLIOptions) ≠ c9CexOptions := by
  exact ⟨by decide, by decide⟩

/-- Claim C9 (amended): `parse_toml ∘ to_toml` is the identity on every
options struct whose serialized fields are within their documented ranges
(`monitor ∈ [−1, 255]`, `bitrate = 0 (auto)` or `∈ [10⁵, 10⁸]`,
`fps ∈ [1, 240]`, `port ∈ [1024, 65535]`), whose string fields contain
neither `'#'` nor a newline, and whose non-serialized fields
(`hw_encoder`, `config_file`, and the four action flags) are at their
defaults — to_toml never writes those, so they cannot round-trip (see
the counterexample). -/
theorem c9_roundtrip (o : CLIOptions) (h : ValidOptions o) :
    parse_toml (to_toml o) = some o := by
  obtain ⟨⟨hm1, hm2⟩, hbit, ⟨hf1, hf2⟩, ⟨hp1, hp2⟩, hbind, hstun, hhw, hcf,
    hsh, hsv, hlm, hla⟩ := h
  unfold parse_toml to_toml
  by_cases hb0 : o.bitrate = 0 <;> by_cases hss : o.stun_server = [] <;>
    [rw [if_pos hb0, if_pos hss]; rw [if_pos hb0, if_neg hss];
     rw [if_neg hb0, if_pos hss]; rw [if_neg hb0, if_neg hss]] <;>
    simp only [List.cons_append, List.nil_append] <;>
    rw [parseLines_skip lex_comment, parseLines_skip lex_blank,
      parseLines_sec lex_display,
      parseLines_kv (lex_backend o.backend)
        (applyKV_backend o.backend _ (by rfl)),
      parseLines_kv (lex_monitor o.monitor_id)
        (applyKV_monitor o.monitor_id _ hm1 hm2),
      parseLines_kv (lex_show_cursor o.show_cursor)
        (applyKV_show_cursor o.show_cursor _),
      parseLines_skip lex_blank, parseLines_sec lex_video,
      parseLines_kv (lex_codec o.codec) (applyKV_codec o.codec _ (by rfl))] <;>
    [rw [parseLines_kv lex_bitrate_auto (applyKV_bitrate_auto _)];
     rw [parseLines_kv lex_bitrate_auto (applyKV_bitrate_auto _)];
     rw [parseLines_kv (lex_bitrate o.bitrate)
       (applyKV_bitrate o.bitrate _ (hbit.resolve_left hb0).1
         (hbit.resolve_left hb0).2)];
     rw [parseLines_kv (lex_bitrate o.bitrate)
       (applyKV_bitrate o.bitrate _ (hbit.resolve_left hb0).1
         (hbit.resolve_left hb0).2)]] <;>
    rw [parseLines_kv (lex_fps o.fps) (applyKV_fps o.fps _ hf1 hf2),
      parseLines_kv (lex_quality o.quality)
        (applyKV_quality o.quality _ (by rfl)),
      parseLines_skip lex_blank, parseLines_sec lex_audio,
      parseLines_kv (lex_enabled o.audio_enabled)
        (applyKV_enabled o.audio_enabled _),
      parseLines_kv (lex_source o.audio_source)
        (applyKV_source o.audio_source _ (by rfl)),
      parseLines_skip lex_blank, parseLines_sec lex_network,
      parseLines_kv (lex_bind o.bind_address (fun c hc => (hbind c hc).1))
        (applyKV_bind o.bind_address _),
      parseLines_kv (lex_port o.port) (applyKV_port o.port _ hp1 hp2)] <;>
    [skip;
     rw [parseLines_kv (lex_stun o.stun_server (fun c hc => (hstun c hc).1))
       (applyKV_stun o.stun_server _)];
     skip;
     rw [parseLines_kv (lex_stun o.stun_server (fun c hc => (hstun c hc).1))
       (applyKV_stun o.stun_server _)]] <;>
    rw [parseLines_skip lex_blank, parseLines_sec lex_logging,
      parseLines_kv (lex_verbose o.verbose) (applyKV_verbose o.verbose _)] <;>
    obtain ⟨bk, mon, sc, cdc, br, fp, qual, hw, asrc, aen, ba, pt, ss, cf, vb,
      sh, sv, lm, lad⟩ := o <;>
    simp_all [parseLines]

/-- Witness for `c9_roundtrip` at a concrete valid options struct. -/
theorem c9_roundtrip_witness :
    parse_toml (to_toml
      { backend := .X11, monitor_id := 3, show_cursor := false,
        codec := .H265, bitrate := 500000, fps := 30, quality := .High,
        audio_source := .Microphone, audio_enabled := false,
        bind_address := str "192.168.1.50", port := 8443,
        stun_server := str "stun.example.org:3478", verbose := true })
      = some
      { backend := .X11, monitor_id := 3, show_cursor := false,
        codec := .H265, bitrate := 500000, fps := 30, quality := .High,
        audio_source := .Microphone, audio_enabled := false,
        bind_address := str "192.168.1.50", port := 8443,
        stun_server := str "stun.example.org:3478", verbose := true } :=
  c9_roundtrip _ (by unfold ValidOptions; decide)

end Config

end StreamLinux
